import Mathlib

/-!
Verification development for the `social_media_automator` backend (`src/app.py`).

The program is a small Flask application with two routes:
* `POST /generate` (function `generate_post`, app.py lines 54-125): validates the
  four request fields, calls the Gemini HTTP API, parses the reply, persists a
  `Post` row, and returns the upstream envelope;
* `GET /posts` (function `get_posts`, app.py lines 128-148): returns all saved
  posts ordered by `created_at` descending, with the stored `hashtags` JSON text
  deserialized.

Python strings are modelled as lists of Unicode code points (`PyStr := List Nat`);
JSON values as the inductive `JVal`.  The JSON layer models CPython's
`json.dumps` (default options: `ensure_ascii=True`, separators `", "` / `": "`,
lowercase `\uXXXX` escapes, surrogate pairs for astral code points) and
`json.loads` (whitespace-tolerant recursive-descent parse, surrogate-pair
recombination).  Numbers are not modelled: no value handled by any claim is
numeric, and Python floats are outside the embedding.  External effects (the
HTTP call, the database commit, the wall clock) enter the handler as explicit
oracle arguments, mirroring exactly the branches of the source.
-/

namespace SMA

/-- A Python string: the sequence of its Unicode code points. -/
abbrev PyStr := List Nat

/-- Code points of a Lean string literal, used to write concrete Python strings. -/
def strCodes (s : String) : PyStr := s.data.map Char.toNat

/-- A Unicode scalar value: a code point that is not a UTF-16 surrogate.
Python strings appearing in real payloads consist of scalar values. -/
def ValidScalar (c : Nat) : Prop := c < 0xD800 ∨ (0xE000 ≤ c ∧ c < 0x110000)

instance (c : Nat) : Decidable (ValidScalar c) := by
  unfold ValidScalar; infer_instance

/-- All code points of a string are Unicode scalar values. -/
def ValidStr (s : PyStr) : Prop := ∀ c ∈ s, ValidScalar c

instance (s : PyStr) : Decidable (ValidStr s) := by
  unfold ValidStr; infer_instance

/-- JSON values (numbers omitted; no claim involves numeric payloads). -/
inductive JVal where
  | jnull : JVal
  | jbool (b : Bool) : JVal
  | jstr (s : PyStr) : JVal
  | jarr (items : List JVal) : JVal
  | jobj (members : List (PyStr × JVal)) : JVal

/-! ### Model of `json.dumps` (CPython `py_encode_basestring_ascii`, default options) -/

/-- Lowercase hex digit code point, as emitted by CPython's `'\u%04x'` formatting. -/
def hexDigitCode (n : Nat) : Nat := if n < 10 then 0x30 + n else 0x61 + (n - 10)

/-- The six-character escape `\uXXXX` of a 16-bit unit `w`. -/
def uEsc (w : Nat) : PyStr :=
  [0x5C, 0x75, hexDigitCode (w / 4096 % 16), hexDigitCode (w / 256 % 16),
   hexDigitCode (w / 16 % 16), hexDigitCode (w % 16)]

/-- Encoding of one code point inside a JSON string literal, per CPython's
ASCII encoder: short escapes for `\" \\ \b \t \n \f \r`, printable ASCII kept
literal, everything else `\uXXXX` (a surrogate pair for astral code points). -/
def escCode (c : Nat) : PyStr :=
  if c = 0x22 then [0x5C, 0x22]
  else if c = 0x5C then [0x5C, 0x5C]
  else if c = 0x08 then [0x5C, 0x62]
  else if c = 0x09 then [0x5C, 0x74]
  else if c = 0x0A then [0x5C, 0x6E]
  else if c = 0x0C then [0x5C, 0x66]
  else if c = 0x0D then [0x5C, 0x72]
  else if 0x20 ≤ c ∧ c ≤ 0x7E then [c]
  else if c < 0x10000 then uEsc c
  else uEsc (0xD800 + (c - 0x10000) / 0x400) ++ uEsc (0xDC00 + (c - 0x10000) % 0x400)

/-- Body of a JSON string literal for `s` (without the surrounding quotes). -/
def escString (s : PyStr) : PyStr := (s.map escCode).flatten

/-- A complete JSON string literal: quote, escaped body, quote. -/
def dumpStr (s : PyStr) : PyStr := 0x22 :: (escString s ++ [0x22])

mutual

/-- Model of `json.dumps` with CPython's default options (`ensure_ascii=True`,
item separator `", "`, key separator `": "`). -/
def pyDumps : JVal → PyStr
  | JVal.jnull => strCodes "null"
  | JVal.jbool true => strCodes "true"
  | JVal.jbool false => strCodes "false"
  | JVal.jstr s => dumpStr s
  | JVal.jarr items => 0x5B :: (pyDumpsItems items ++ [0x5D])
  | JVal.jobj members => 0x7B :: (pyDumpsMembers members ++ [0x7D])

/-- Array items joined by `", "`. -/
def pyDumpsItems : List JVal → PyStr
  | [] => []
  | [v] => pyDumps v
  | v :: w :: rest => pyDumps v ++ (0x2C :: 0x20 :: pyDumpsItems (w :: rest))

/-- Object members `"key": value` joined by `", "`. -/
def pyDumpsMembers : List (PyStr × JVal) → PyStr
  | [] => []
  | [(k, v)] => dumpStr k ++ (0x3A :: 0x20 :: pyDumps v)
  | (k, v) :: m :: rest =>
      dumpStr k ++ (0x3A :: 0x20 :: pyDumps v) ++ (0x2C :: 0x20 :: pyDumpsMembers (m :: rest))

end

/-! ### Model of `json.loads` (CPython scanner) -/

/-- JSON whitespace accepted by the scanner: space, tab, newline, carriage return. -/
def isWsCode (c : Nat) : Bool := c = 0x20 || c = 0x09 || c = 0x0A || c = 0x0D

/-- Drop leading JSON whitespace. -/
def skipWs : PyStr → PyStr
  | [] => []
  | c :: r => if isWsCode c then skipWs r else c :: r

/-- Value of one hex digit code point (`0-9`, `a-f`, `A-F`). -/
def hexVal (c : Nat) : Option Nat :=
  if 0x30 ≤ c ∧ c ≤ 0x39 then some (c - 0x30)
  else if 0x61 ≤ c ∧ c ≤ 0x66 then some (c - 0x61 + 10)
  else if 0x41 ≤ c ∧ c ≤ 0x46 then some (c - 0x41 + 10)
  else none

/-- Scanner for the body of a JSON string literal, after the opening quote,
per CPython `scanstring`: returns the decoded code points and the input
remaining after the closing quote.  A `\uXXXX` escape that decodes to a high
surrogate immediately followed by a `\uXXXX` low surrogate is recombined into
one astral code point.  The first argument is fuel; each step consumes at least
one input character, so fuel `≥` input length makes the result fuel-independent. -/
def parseSB : Nat → PyStr → Option (PyStr × PyStr)
  | 0, _ => none
  | _ + 1, [] => none
  | fuel + 1, c :: r =>
    if c = 0x22 then some ([], r)
    else if c = 0x5C then
      match r with
      | [] => none
      | e :: r2 =>
        if e = 0x22 then (parseSB fuel r2).map (fun p => (0x22 :: p.1, p.2))
        else if e = 0x5C then (parseSB fuel r2).map (fun p => (0x5C :: p.1, p.2))
        else if e = 0x2F then (parseSB fuel r2).map (fun p => (0x2F :: p.1, p.2))
        else if e = 0x62 then (parseSB fuel r2).map (fun p => (0x08 :: p.1, p.2))
        else if e = 0x66 then (parseSB fuel r2).map (fun p => (0x0C :: p.1, p.2))
        else if e = 0x6E then (parseSB fuel r2).map (fun p => (0x0A :: p.1, p.2))
        else if e = 0x72 then (parseSB fuel r2).map (fun p => (0x0D :: p.1, p.2))
        else if e = 0x74 then (parseSB fuel r2).map (fun p => (0x09 :: p.1, p.2))
        else if e = 0x75 then
          match r2 with
          | a :: b :: c2 :: d :: r3 =>
            match hexVal a, hexVal b, hexVal c2, hexVal d with
            | some ha, some hb, some hc, some hd =>
              let w1 := ha * 4096 + hb * 256 + hc * 16 + hd
              if 0xD800 ≤ w1 ∧ w1 ≤ 0xDBFF then
                match r3 with
                | f2 :: u2 :: a2 :: b2 :: c3 :: d2 :: r4 =>
                  if f2 = 0x5C ∧ u2 = 0x75 then
                    match hexVal a2, hexVal b2, hexVal c3, hexVal d2 with
                    | some ka, some kb, some kc, some kd =>
                      let w2 := ka * 4096 + kb * 256 + kc * 16 + kd
                      if 0xDC00 ≤ w2 ∧ w2 ≤ 0xDFFF then
                        (parseSB fuel r4).map
                          (fun p => ((0x10000 + (w1 - 0xD800) * 0x400 + (w2 - 0xDC00)) :: p.1, p.2))
                      else (parseSB fuel r3).map (fun p => (w1 :: p.1, p.2))
                    | _, _, _, _ => none
                  else (parseSB fuel r3).map (fun p => (w1 :: p.1, p.2))
                | _ => (parseSB fuel r3).map (fun p => (w1 :: p.1, p.2))
              else (parseSB fuel r3).map (fun p => (w1 :: p.1, p.2))
            | _, _, _, _ => none
          | _ => none
        else none
    else (parseSB fuel r).map (fun p => (c :: p.1, p.2))

mutual

/-- Parse one JSON value (numbers unsupported, see module comment); skips
leading whitespace.  Fuel decreases at each nesting step. -/
def parseVal : Nat → PyStr → Option (JVal × PyStr)
  | 0, _ => none
  | fuel + 1, s =>
    match skipWs s with
    | [] => none
    | c :: r =>
      if c = 0x22 then (parseSB r.length r).map (fun p => (JVal.jstr p.1, p.2))
      else if c = 0x5B then
        match skipWs r with
        | 0x5D :: r2 => some (JVal.jarr [], r2)
        | _ => (parseItems fuel r).map (fun p => (JVal.jarr p.1, p.2))
      else if c = 0x7B then
        match skipWs r with
        | 0x7D :: r2 => some (JVal.jobj [], r2)
        | _ => (parseMembers fuel r).map (fun p => (JVal.jobj p.1, p.2))
      else if c = 0x6E then
        match r with
        | 0x75 :: 0x6C :: 0x6C :: r2 => some (JVal.jnull, r2)
        | _ => none
      else if c = 0x74 then
        match r with
        | 0x72 :: 0x75 :: 0x65 :: r2 => some (JVal.jbool true, r2)
        | _ => none
      else if c = 0x66 then
        match r with
        | 0x61 :: 0x6C :: 0x73 :: 0x65 :: r2 => some (JVal.jbool false, r2)
        | _ => none
      else none

/-- Parse the non-empty item list of a JSON array, up to and including `]`. -/
def parseItems : Nat → PyStr → Option (List JVal × PyStr)
  | 0, _ => none
  | fuel + 1, s =>
    match parseVal fuel s with
    | none => none
    | some (v, r) =>
      match skipWs r with
      | 0x2C :: r2 =>
        match parseItems fuel r2 with
        | none => none
        | some (vs, r3) => some (v :: vs, r3)
      | 0x5D :: r2 => some ([v], r2)
      | _ => none

/-- Parse the non-empty member list of a JSON object, up to and including `}`. -/
def parseMembers : Nat → PyStr → Option (List (PyStr × JVal) × PyStr)
  | 0, _ => none
  | fuel + 1, s =>
    match skipWs s with
    | 0x22 :: r =>
      match parseSB r.length r with
      | none => none
      | some (k, r2) =>
        match skipWs r2 with
        | 0x3A :: r3 =>
          match parseVal fuel r3 with
          | none => none
          | some (v, r4) =>
            match skipWs r4 with
            | 0x2C :: r5 =>
              match parseMembers fuel r5 with
              | none => none
              | some (ms, r6) => some ((k, v) :: ms, r6)
            | 0x7D :: r5 => some ([(k, v)], r5)
            | _ => none
        | _ => none
    | _ => none

end

/-- Model of `json.loads`: parse one value, then require only whitespace to
remain.  The fuel `2 * length + 2` exceeds the recursion depth on any input. -/
def pyLoads (s : PyStr) : Option JVal :=
  match parseVal (2 * s.length + 2) s with
  | some (v, r) => if skipWs r = [] then some v else none
  | none => none

/-! ### Data model (app.py lines 31-43) and application state -/

/-- The persisted `Post` row (app.py lines 31-40).  `hashtags` holds the JSON
text produced by `json.dumps` (line 107); `created_at` is the model timestamp
assigned at commit (column default `datetime.utcnow`).  Request-derived fields
hold the JSON values taken from the request body. -/
structure Post where
  id : Nat
  topic : JVal
  persona : JVal
  tone : JVal
  platform : JVal
  caption : JVal
  image_prompt : JVal
  hashtags : PyStr
  created_at : Nat

/-- A row added to the SQLAlchemy session but not yet committed (no id, no
timestamp: both are assigned by the database at commit). -/
structure PendingPost where
  topic : JVal
  persona : JVal
  tone : JVal
  platform : JVal
  caption : JVal
  image_prompt : JVal
  hashtags : PyStr

/-- Database state: the committed rows and the next auto-increment id. -/
structure St where
  committed : List Post
  nextId : Nat

/-- Environment variables read by the program (`os.getenv`).  A missing
variable is `none`; Python's `os.getenv` returns `None` for it. -/
structure Env where
  geminiApiKey : Option PyStr
  dbUser : Option PyStr
  dbPassword : Option PyStr
  dbHost : Option PyStr
  dbName : Option PyStr

/-- How Python renders an `Option` string into an f-string: `None` if absent. -/
def pyFormatOpt (o : Option PyStr) : PyStr :=
  match o with
  | some s => s
  | none => strCodes "None"

/-- Module-level application setup (app.py lines 12-28): build the database
URI from the four environment variables and configure the app.  It performs no
check of any kind on `GEMINI_API_KEY`; it cannot fail on its absence. -/
structure AppConfig where
  databaseUri : PyStr
  corsEnabled : Bool
  trackModifications : Bool

/-- Model of app.py lines 12-28 (`database_uri` f-string, `CORS(app)`,
`SQLALCHEMY_TRACK_MODIFICATIONS = False`). -/
def initApp (env : Env) : AppConfig :=
  { databaseUri :=
      strCodes "mysql+mysqlconnector://" ++ pyFormatOpt env.dbUser ++ strCodes ":" ++
      pyFormatOpt env.dbPassword ++ strCodes "@" ++ pyFormatOpt env.dbHost ++
      strCodes "/" ++ pyFormatOpt env.dbName,
    corsEnabled := true,
    trackModifications := false }

/-! ### Request handler model (`generate_post`, app.py lines 54-125) -/

/-- Python exceptions that can reach the generic `except Exception` handler. -/
inductive PyExn where
  | badRequest : PyExn
  | attrError : PyExn
  | typeError : PyExn
  | keyError : PyExn
  | indexError : PyExn
  | jsonError : PyExn
  | commitFailed : PyExn

/-- The error bodies the handler can produce (the `jsonify({"error": ...})`
payloads of app.py lines 68, 73, 121, 125 and 148). -/
inductive ErrMsg where
  | missingFields : ErrMsg
  | noApiKey : ErrMsg
  | upstreamFailure : ErrMsg
  | internalError (e : PyExn) : ErrMsg
  | retrieveFailed : ErrMsg

/-- Response body of `POST /generate`: the upstream envelope on success
(line 117 returns `jsonify(gemini_response)`) or an error object. -/
inductive GenBody where
  | envelope (v : JVal) : GenBody
  | err (m : ErrMsg) : GenBody

/-- The request body as Flask's `request.json` sees it: raising (malformed
JSON / wrong content type) or a parsed JSON value. -/
inductive ReqBody where
  | malformed : ReqBody
  | parsed (v : JVal) : ReqBody

/-- Outcome of `requests.post` (line 91): a `RequestException` (network error
or timeout), or a response with an HTTP status and the result of
`response.json()` (`none` when the body is not valid JSON, in which case
`response.json()` raises). -/
inductive UpstreamOutcome where
  | netError : UpstreamOutcome
  | response (status : Nat) (body : Option JVal) : UpstreamOutcome

/-- Everything observable about one `POST /generate` invocation: the HTTP
response, the database state after the request, whether the external AI
service was called, and the session's pending rows after the handler returns. -/
structure GenOut where
  resp : Nat × GenBody
  st : St
  calledUpstream : Bool
  sessionPending : List PendingPost

/-- Python `dict` lookup on a parsed-JSON object: for duplicate keys the last
occurrence wins, as when `json` builds the `dict`. -/
def dictGet (ms : List (PyStr × JVal)) (k : PyStr) : Option JVal :=
  ms.foldl (fun acc kv => if kv.1 = k then some kv.2 else acc) none

/-- Python truthiness of a parsed JSON value (`None`, `""`, `[]`, `{}` and
`False` are falsy), used by `if not all([...])` on line 67. -/
def pyTruthy (v : JVal) : Bool :=
  match v with
  | JVal.jnull => false
  | JVal.jbool b => b
  | JVal.jstr s => !s.isEmpty
  | JVal.jarr l => !l.isEmpty
  | JVal.jobj ms => !ms.isEmpty

/-- Truthiness of `os.getenv("GEMINI_API_KEY")` for `if not api_key` on
line 72: falsy when the variable is absent or the empty string. -/
def truthyStrOpt (o : Option PyStr) : Bool :=
  match o with
  | some s => !s.isEmpty
  | none => false

/-- Python `value[key]` subscription for a string key: `KeyError` on a `dict`
without the key, `TypeError` on any non-`dict`. -/
def pyGetItemKey (v : JVal) (k : PyStr) : Except PyExn JVal :=
  match v with
  | JVal.jobj ms =>
    match dictGet ms k with
    | some x => Except.ok x
    | none => Except.error PyExn.keyError
  | _ => Except.error PyExn.typeError

/-- Python `value[i]` subscription for index `0`: element of a `list`,
one-character string of a `str`, `KeyError` on a `dict`, `TypeError` otherwise. -/
def pyIndex (v : JVal) (i : Nat) : Except PyExn JVal :=
  match v with
  | JVal.jarr l =>
    match l.get? i with
    | some x => Except.ok x
    | none => Except.error PyExn.indexError
  | JVal.jstr s =>
    match s.get? i with
    | some c => Except.ok (JVal.jstr [c])
    | none => Except.error PyExn.indexError
  | JVal.jobj _ => Except.error PyExn.keyError
  | _ => Except.error PyExn.typeError

/-- Line 96: `gemini_response['candidates'][0]['content']['parts'][0]['text']`,
followed by the `str` requirement of `json.loads` (line 97 raises `TypeError`
on a non-string argument). -/
def extractText (envl : JVal) : Except PyExn PyStr := do
  let c ← pyGetItemKey envl (strCodes "candidates")
  let c0 ← pyIndex c 0
  let ct ← pyGetItemKey c0 (strCodes "content")
  let ps ← pyGetItemKey ct (strCodes "parts")
  let p0 ← pyIndex ps 0
  let t ← pyGetItemKey p0 (strCodes "text")
  match t with
  | JVal.jstr s => pure s
  | _ => Except.error PyExn.typeError

/-- Lines 97-107: parse `content_text` and read the three keys evaluated while
building `Post(...)` (left to right: `caption`, `image_prompt`, `hashtags`). -/
def parseContent (text : PyStr) : Except PyExn (JVal × JVal × JVal) := do
  let gc ←
    match pyLoads text with
    | some v => Except.ok v
    | none => Except.error PyExn.jsonError
  let ca ← pyGetItemKey gc (strCodes "caption")
  let ip ← pyGetItemKey gc (strCodes "imagePrompt")
  let ht ← pyGetItemKey gc (strCodes "hashtags")
  pure (ca, ip, ht)

/-- Lines 90-117 after validation succeeded with the four truthy field values:
the upstream call, `raise_for_status` (which raises `HTTPError`, a
`RequestException`, exactly for statuses 400-599), envelope decoding, content
parsing, row construction and commit.  `commitOk` is the database oracle for
`db.session.commit()`; on a raise the generic handler rolls the session back
(line 124) and returns the 500 of line 125. -/
def callAndSave (_env : Env) (upstream : UpstreamOutcome) (commitOk : Bool) (now : Nat)
    (st : St) (tv ov fv sv : JVal) : GenOut :=
  match upstream with
  | UpstreamOutcome.netError =>
    { resp := (500, GenBody.err ErrMsg.upstreamFailure), st := st,
      calledUpstream := true, sessionPending := [] }
  | UpstreamOutcome.response status mbody =>
    if 400 ≤ status ∧ status < 600 then
      { resp := (500, GenBody.err ErrMsg.upstreamFailure), st := st,
        calledUpstream := true, sessionPending := [] }
    else
      match mbody with
      | none =>
        { resp := (500, GenBody.err (ErrMsg.internalError PyExn.jsonError)), st := st,
          calledUpstream := true, sessionPending := [] }
      | some envl =>
        match (do
            let text ← extractText envl
            parseContent text : Except PyExn (JVal × JVal × JVal)) with
        | Except.error e =>
          { resp := (500, GenBody.err (ErrMsg.internalError e)), st := st,
            calledUpstream := true, sessionPending := [] }
        | Except.ok (ca, ip, ht) =>
          if commitOk then
            { resp := (200, GenBody.envelope envl),
              st := { committed := st.committed ++
                        [{ id := st.nextId, topic := tv, persona := sv, tone := ov,
                           platform := fv, caption := ca, image_prompt := ip,
                           hashtags := pyDumps ht, created_at := now }],
                      nextId := st.nextId + 1 },
              calledUpstream := true, sessionPending := [] }
          else
            { resp := (500, GenBody.err (ErrMsg.internalError PyExn.commitFailed)), st := st,
              calledUpstream := true, sessionPending := [] }

/-- The `POST /generate` handler (app.py lines 54-125).  `env` is the process
environment, `body` the request body, `upstream` / `commitOk` the oracles for
the two external effects, `now` the wall-clock time of the save, `st` the
database state when the request arrives. -/
def generate_post (env : Env) (body : ReqBody) (upstream : UpstreamOutcome)
    (commitOk : Bool) (now : Nat) (st : St) : GenOut :=
  match body with
  | ReqBody.malformed =>
    { resp := (500, GenBody.err (ErrMsg.internalError PyExn.badRequest)), st := st,
      calledUpstream := false, sessionPending := [] }
  | ReqBody.parsed data =>
    match data with
    | JVal.jobj ms =>
      match dictGet ms (strCodes "topic"), dictGet ms (strCodes "tone"),
            dictGet ms (strCodes "platform"), dictGet ms (strCodes "persona") with
      | some tv, some ov, some fv, some sv =>
        if pyTruthy tv && pyTruthy ov && pyTruthy fv && pyTruthy sv then
          if truthyStrOpt env.geminiApiKey then
            callAndSave env upstream commitOk now st tv ov fv sv
          else
            { resp := (500, GenBody.err ErrMsg.noApiKey), st := st,
              calledUpstream := false, sessionPending := [] }
        else
          { resp := (400, GenBody.err ErrMsg.missingFields), st := st,
            calledUpstream := false, sessionPending := [] }
      | _, _, _, _ =>
        { resp := (400, GenBody.err ErrMsg.missingFields), st := st,
          calledUpstream := false, sessionPending := [] }
    | _ =>
      { resp := (500, GenBody.err (ErrMsg.internalError PyExn.attrError)), st := st,
        calledUpstream := false, sessionPending := [] }

/-! ### Listing model (`get_posts`, app.py lines 128-148) -/

/-- Decimal digit code points of the model timestamp.  Models
`created_at.isoformat()` (line 142): an injective rendering of the stored
timestamp as a string; the calendar formatting of `datetime` is abstracted. -/
def isoformat (n : Nat) : PyStr := (Nat.toDigits 10 n).map Char.toNat

/-- One element of the `posts_list` comprehension (lines 136-143). -/
structure Entry where
  id : Nat
  topic : JVal
  caption : JVal
  image_prompt : JVal
  hashtags : JVal
  created_at : PyStr

/-- Response body of `GET /posts`. -/
inductive GetBody where
  | ok (entries : List Entry) : GetBody
  | err (m : ErrMsg) : GetBody

/-- One comprehension element: `json.loads(post.hashtags)` raises (propagating
to the `except` of line 146) when the stored text is not valid JSON. -/
def renderPost (p : Post) : Option Entry :=
  match pyLoads p.hashtags with
  | some h =>
    some { id := p.id, topic := p.topic, caption := p.caption,
           image_prompt := p.image_prompt, hashtags := h,
           created_at := isoformat p.created_at }
  | none => none

/-- The list comprehension of lines 135-144: any raising element aborts all. -/
def renderAll : List Post → Option (List Entry)
  | [] => some []
  | p :: ps =>
    match renderPost p, renderAll ps with
    | some e, some es => some (e :: es)
    | _, _ => none

/-- The `ORDER BY created_at DESC` relation of line 134. -/
def postDescOrder (a b : Post) : Prop := b.created_at ≤ a.created_at

instance : DecidableRel postDescOrder := fun a b => Nat.decLe b.created_at a.created_at

instance : IsTotal Post postDescOrder := ⟨fun a b => Nat.le_total b.created_at a.created_at⟩

instance : IsTrans Post postDescOrder := ⟨fun _ _ _ h1 h2 => Nat.le_trans h2 h1⟩

/-- The rendered entry of a post whose stored hashtags text parses. -/
def renderE (p : Post) : Entry :=
  { id := p.id, topic := p.topic, caption := p.caption, image_prompt := p.image_prompt,
    hashtags := (pyLoads p.hashtags).getD JVal.jnull, created_at := isoformat p.created_at }

/-- The `GET /posts` handler (app.py lines 128-148).  `queryOk` is the oracle
for the database query of line 134; the sort models `ORDER BY created_at DESC`. -/
def get_posts (st : St) (queryOk : Bool) : Nat × GetBody :=
  if queryOk then
    match renderAll (List.insertionSort postDescOrder st.committed) with
    | some es => (200, GetBody.ok es)
    | none => (500, GetBody.err ErrMsg.retrieveFailed)
  else (500, GetBody.err ErrMsg.retrieveFailed)

/-! ### Operation sequences over the store -/

/-- One inbound HTTP operation with all its oracle inputs. -/
inductive Op where
  | gen (env : Env) (body : ReqBody) (upstream : UpstreamOutcome)
        (commitOk : Bool) (now : Nat) : Op
  | list (queryOk : Bool) : Op

/-- Effect of one operation on the database state (`get_posts` only reads). -/
def step (st : St) (op : Op) : St :=
  match op with
  | Op.gen env body upstream commitOk now => (generate_post env body upstream commitOk now st).st
  | Op.list _ => st

/-! ### Concrete fixtures (used by witnesses and counterexamples) -/

/-- A present, non-empty API key. -/
def keyOk : Option PyStr := some (strCodes "test-key")

/-- A fully-configured environment. -/
def env0 : Env :=
  { geminiApiKey := keyOk, dbUser := some (strCodes "root"),
    dbPassword := some (strCodes "pw"), dbHost := some (strCodes "localhost"),
    dbName := some (strCodes "smm_db") }

/-- The same environment with `GEMINI_API_KEY` absent. -/
def envNoKey : Env := { env0 with geminiApiKey := none }

/-- The request-body members of the specification example. -/
def ms0 : List (PyStr × JVal) :=
  [(strCodes "topic", JVal.jstr (strCodes "coffee")),
   (strCodes "tone", JVal.jstr (strCodes "playful")),
   (strCodes "platform", JVal.jstr (strCodes "Instagram")),
   (strCodes "persona", JVal.jstr (strCodes "barista"))]

/-- The specification-example request body. -/
def reqBody0 : ReqBody := ReqBody.parsed (JVal.jobj ms0)

/-- The hashtags of the specification example. -/
def tags0 : List PyStr := [strCodes "coffee", strCodes "morning"]

/-- The generated-content text of the specification example. -/
def contentText0 : PyStr :=
  strCodes "\x7b\"caption\": \"**Good morning!**\", \"imagePrompt\": \"a steaming latte\", \"hashtags\": [\"coffee\", \"morning\"]\x7d"

/-- The members `contentText0` parses to. -/
def gms0 : List (PyStr × JVal) :=
  [(strCodes "caption", JVal.jstr (strCodes "**Good morning!**")),
   (strCodes "imagePrompt", JVal.jstr (strCodes "a steaming latte")),
   (strCodes "hashtags", JVal.jarr (tags0.map JVal.jstr))]

/-- An upstream envelope carrying `contentText0` at
`candidates[0].content.parts[0].text`. -/
def envelope0 : JVal :=
  JVal.jobj [(strCodes "candidates", JVal.jarr
    [JVal.jobj [(strCodes "content", JVal.jobj
      [(strCodes "parts", JVal.jarr
        [JVal.jobj [(strCodes "text", JVal.jstr contentText0)]])])]])]

/-- An empty store. -/
def st0 : St := { committed := [], nextId := 1 }

/-- A store with two parseable posts saved at times 3 and 9. -/
def st2 : St :=
  { committed :=
      [{ id := 1, topic := JVal.jstr (strCodes "tea"), persona := JVal.jstr (strCodes "p"),
         tone := JVal.jstr (strCodes "calm"), platform := JVal.jstr (strCodes "X"),
         caption := JVal.jstr (strCodes "c1"), image_prompt := JVal.jstr (strCodes "i1"),
         hashtags := pyDumps (JVal.jarr [JVal.jstr (strCodes "tea")]), created_at := 3 },
       { id := 2, topic := JVal.jstr (strCodes "coffee"), persona := JVal.jstr (strCodes "p"),
         tone := JVal.jstr (strCodes "warm"), platform := JVal.jstr (strCodes "X"),
         caption := JVal.jstr (strCodes "c2"), image_prompt := JVal.jstr (strCodes "i2"),
         hashtags := pyDumps (JVal.jarr [JVal.jstr (strCodes "coffee")]), created_at := 9 }],
    nextId := 3 }

/-- A request body object lacking the `topic` field. -/
def msNoTopic : List (PyStr × JVal) :=
  [(strCodes "tone", JVal.jstr (strCodes "playful")),
   (strCodes "platform", JVal.jstr (strCodes "Instagram")),
   (strCodes "persona", JVal.jstr (strCodes "barista"))]

/-- An upstream text payload that is not valid JSON. -/
def badText0 : PyStr := strCodes "not json"

/-- An upstream envelope whose text payload is not valid JSON. -/
def envelopeBad : JVal :=
  JVal.jobj [(strCodes "candidates", JVal.jarr
    [JVal.jobj [(strCodes "content", JVal.jobj
      [(strCodes "parts", JVal.jarr
        [JVal.jobj [(strCodes "text", JVal.jstr badText0)]])])]])]

/-- A field of the request object is absent or the empty string. -/
def MissingField (ms : List (PyStr × JVal)) (k : PyStr) : Prop :=
  dictGet ms k = none ∨ dictGet ms k = some (JVal.jstr [])

/-! ### Round-trip lemmas for the JSON layer -/

theorem isWs_quote : isWsCode 0x22 = false := by decide

theorem skipWs_cons_of_not_ws {c : Nat} (h : isWsCode c = false) (r : PyStr) :
    skipWs (c :: r) = c :: r := by simp [skipWs, h]

theorem hexVal_hexDigitCode : ∀ n < 16, hexVal (hexDigitCode n) = some n := by decide

theorem hex4_recon (w : Nat) (h : w < 0x10000) :
    w / 4096 % 16 * 4096 + w / 256 % 16 * 256 + w / 16 % 16 * 16 + w % 16 = w := by omega

theorem one_le_escCode_len (c : Nat) : 1 ≤ (escCode c).length := by
  unfold escCode uEsc; split_ifs <;> simp

theorem escString_nil : escString [] = [] := by simp [escString]

theorem escString_cons (c : Nat) (s : PyStr) :
    escString (c :: s) = escCode c ++ escString s := by simp [escString]

theorem le_escString_len (s : PyStr) : s.length ≤ (escString s).length := by
  induction s with
  | nil => simp [escString_nil]
  | cons c s ih =>
    rw [escString_cons]
    have := one_le_escCode_len c
    simp only [List.length_cons, List.length_append]
    omega

theorem parseSB_uEsc (w : Nat) (hw : w < 0x10000) (hns : ¬(0xD800 ≤ w ∧ w ≤ 0xDBFF))
    (t : PyStr) (fuel : Nat) :
    parseSB (fuel + 1) (uEsc w ++ t) = (parseSB fuel t).map (fun p => (w :: p.1, p.2)) := by
  have h1 := hexVal_hexDigitCode (w / 4096 % 16) (by omega)
  have h2 := hexVal_hexDigitCode (w / 256 % 16) (by omega)
  have h3 := hexVal_hexDigitCode (w / 16 % 16) (by omega)
  have h4 := hexVal_hexDigitCode (w % 16) (by omega)
  have hrec := hex4_recon w hw
  simp only [uEsc, List.cons_append, List.nil_append]
  simp only [parseSB, h1, h2, h3, h4]
  norm_num
  rw [hrec, if_neg hns]

theorem parseSB_uEsc_pair (w1 w2 : Nat) (hw1 : 0xD800 ≤ w1 ∧ w1 ≤ 0xDBFF)
    (hw2 : 0xDC00 ≤ w2 ∧ w2 ≤ 0xDFFF) (t : PyStr) (fuel : Nat) :
    parseSB (fuel + 1) (uEsc w1 ++ uEsc w2 ++ t)
      = (parseSB fuel t).map
          (fun p => ((0x10000 + (w1 - 0xD800) * 0x400 + (w2 - 0xDC00)) :: p.1, p.2)) := by
  have h1 := hexVal_hexDigitCode (w1 / 4096 % 16) (by omega)
  have h2 := hexVal_hexDigitCode (w1 / 256 % 16) (by omega)
  have h3 := hexVal_hexDigitCode (w1 / 16 % 16) (by omega)
  have h4 := hexVal_hexDigitCode (w1 % 16) (by omega)
  have k1 := hexVal_hexDigitCode (w2 / 4096 % 16) (by omega)
  have k2 := hexVal_hexDigitCode (w2 / 256 % 16) (by omega)
  have k3 := hexVal_hexDigitCode (w2 / 16 % 16) (by omega)
  have k4 := hexVal_hexDigitCode (w2 % 16) (by omega)
  have hrec1 := hex4_recon w1 (by omega)
  have hrec2 := hex4_recon w2 (by omega)
  simp only [uEsc, List.cons_append, List.nil_append, List.append_assoc]
  simp only [parseSB, h1, h2, h3, h4]
  norm_num
  rw [hrec1]
  rw [if_pos (by omega : (55296 : Nat) ≤ w1 ∧ w1 ≤ 56319)]
  simp only [k1, k2, k3, k4]
  rw [hrec2]
  rw [if_pos (by omega : (56320 : Nat) ≤ w2 ∧ w2 ≤ 57343)]

theorem parseSB_escCode (c : Nat) (hc : ValidScalar c) (t : PyStr) (fuel : Nat) :
    parseSB (fuel + 1) (escCode c ++ t) = (parseSB fuel t).map (fun p => (c :: p.1, p.2)) := by
  have hns : ¬(0xD800 ≤ c ∧ c ≤ 0xDBFF) := by rcases hc with h | h <;> omega
  have hlt : c < 0x110000 := by rcases hc with h | h <;> omega
  unfold escCode
  split_ifs with h1 h2 h3 h4 h5 h6 h7 h8 h9
  · subst h1; simp [parseSB]
  · subst h2; simp [parseSB]
  · subst h3; simp [parseSB]
  · subst h4; simp [parseSB]
  · subst h5; simp [parseSB]
  · subst h6; simp [parseSB]
  · subst h7; simp [parseSB]
  · simp only [List.cons_append, List.nil_append]
    simp only [parseSB]
    rw [if_neg h1, if_neg h2]
  · exact parseSB_uEsc c h9 hns t fuel
  · rw [parseSB_uEsc_pair (0xD800 + (c - 0x10000) / 0x400) (0xDC00 + (c - 0x10000) % 0x400)
          (by omega) (by omega) t fuel]
    have hco : 0x10000 + (0xD800 + (c - 0x10000) / 0x400 - 0xD800) * 0x400 +
        (0xDC00 + (c - 0x10000) % 0x400 - 0xDC00) = c := by omega
    rw [hco]

theorem parseSB_escString (s : PyStr) (hs : ValidStr s) (t : PyStr) :
    ∀ fuel, s.length < fuel → parseSB fuel (escString s ++ (0x22 :: t)) = some (s, t) := by
  induction s with
  | nil =>
    intro fuel hf
    match fuel, hf with
    | fuel + 1, _ => rw [escString_nil]; simp [parseSB]
  | cons c s ih =>
    intro fuel hf
    match fuel, hf with
    | fuel + 1, hf =>
      rw [escString_cons, List.append_assoc]
      rw [parseSB_escCode c (hs c (by simp)) _ fuel]
      rw [ih (fun x hx => hs x (by simp [hx])) fuel (by simp at hf; omega)]
      rfl

theorem skipWs_quote (r : PyStr) : skipWs (0x22 :: r) = 0x22 :: r := by
  simp [skipWs, isWsCode]

theorem skipWs_space (r : PyStr) : skipWs (0x20 :: r) = skipWs r := by
  simp [skipWs, isWsCode]

theorem parseVal_ws_cons (fuel : Nat) (s : PyStr) :
    parseVal fuel (0x20 :: s) = parseVal fuel s := by
  cases fuel with
  | zero => rfl
  | succ f => simp only [parseVal, skipWs_space]

theorem parseItems_ws_cons (fuel : Nat) (s : PyStr) :
    parseItems fuel (0x20 :: s) = parseItems fuel s := by
  cases fuel with
  | zero => rfl
  | succ f => simp only [parseItems, parseVal_ws_cons]

theorem parseVal_dumpStr (s : PyStr) (hs : ValidStr s) (t : PyStr) (fuel : Nat) :
    parseVal (fuel + 1) (dumpStr s ++ t) = some (JVal.jstr s, t) := by
  have hshape : dumpStr s ++ t = 0x22 :: (escString s ++ (0x22 :: t)) := by
    simp [dumpStr]
  rw [hshape]
  simp only [parseVal, skipWs_quote]
  norm_num
  exact parseSB_escString s hs t _ (by have := le_escString_len s; omega)

theorem parseItems_strs (rest : PyStr) (xs : List PyStr) :
    ∀ x : PyStr, ValidStr x → (∀ s ∈ xs, ValidStr s) →
    ∀ fuel, xs.length + 2 ≤ fuel →
      parseItems fuel (pyDumpsItems ((x :: xs).map JVal.jstr) ++ (0x5D :: rest))
        = some ((x :: xs).map JVal.jstr, rest) := by
  induction xs with
  | nil =>
    intro x hx _ fuel hf
    obtain ⟨f2, rfl⟩ : ∃ f2, fuel = f2 + 1 + 1 := ⟨fuel - 2, by omega⟩
    simp only [List.map_cons, List.map_nil, pyDumpsItems, pyDumps]
    simp only [parseItems]
    rw [parseVal_dumpStr x hx _ f2]
    simp [skipWs, isWsCode]
  | cons y ys ih =>
    intro x hx hxs fuel hf
    obtain ⟨f, rfl⟩ : ∃ f, fuel = f + 1 := ⟨fuel - 1, by omega⟩
    obtain ⟨f2, hf2⟩ : ∃ f2, f = f2 + 1 := ⟨f - 1, by omega⟩
    simp only [List.map_cons, pyDumpsItems, pyDumps]
    have hshape :
        (dumpStr x ++ (0x2C :: 0x20 :: pyDumpsItems (JVal.jstr y :: ys.map JVal.jstr)))
            ++ (0x5D :: rest)
          = dumpStr x ++ (0x2C :: 0x20 ::
              (pyDumpsItems (JVal.jstr y :: ys.map JVal.jstr) ++ (0x5D :: rest))) := by
      simp [List.append_assoc]
    rw [hshape]
    simp only [parseItems]
    rw [hf2, parseVal_dumpStr x hx _ f2, ← hf2]
    have hsk : skipWs (0x2C :: 0x20 ::
        (pyDumpsItems (JVal.jstr y :: ys.map JVal.jstr) ++ (0x5D :: rest)))
        = 0x2C :: 0x20 ::
            (pyDumpsItems (JVal.jstr y :: ys.map JVal.jstr) ++ (0x5D :: rest)) := by
      simp [skipWs, isWsCode]
    simp only [hsk]
    rw [parseItems_ws_cons]
    have := ih y (hxs y (by simp)) (fun s hns => hxs s (by simp [hns])) f (by simp at hf; omega)
    simp only [List.map_cons] at this
    rw [this]

theorem parseVal_dumps_strArr (l : List PyStr) (hl : ∀ s ∈ l, ValidStr s) (rest : PyStr) :
    ∀ fuel, l.length + 2 ≤ fuel →
      parseVal fuel (pyDumps (JVal.jarr (l.map JVal.jstr)) ++ rest)
        = some (JVal.jarr (l.map JVal.jstr), rest) := by
  intro fuel hf
  obtain ⟨f, rfl⟩ : ∃ f, fuel = f + 1 := ⟨fuel - 1, by omega⟩
  cases l with
  | nil =>
    simp only [List.map_nil, pyDumps, pyDumpsItems]
    simp [parseVal, skipWs, isWsCode]
  | cons x xs =>
    simp only [List.map_cons]
    have hshape : pyDumps (JVal.jarr (JVal.jstr x :: xs.map JVal.jstr)) ++ rest
        = 0x5B :: (pyDumpsItems (JVal.jstr x :: xs.map JVal.jstr) ++ (0x5D :: rest)) := by
      simp [pyDumps, List.append_assoc]
    rw [hshape]
    have hcons : ∃ z,
        pyDumpsItems (JVal.jstr x :: xs.map JVal.jstr) ++ (0x5D :: rest) = 0x22 :: z := by
      cases xs <;> simp [pyDumpsItems, pyDumps, dumpStr]
    obtain ⟨z, hz⟩ := hcons
    simp only [parseVal]
    rw [show skipWs (0x5B :: (pyDumpsItems (JVal.jstr x :: xs.map JVal.jstr) ++ (0x5D :: rest)))
          = 0x5B :: (pyDumpsItems (JVal.jstr x :: xs.map JVal.jstr) ++ (0x5D :: rest)) from by
        simp [skipWs, isWsCode]]
    norm_num
    rw [hz, skipWs_quote]
    norm_num
    rw [← hz]
    have happ := parseItems_strs rest xs x (hl x (by simp)) (fun s hs => hl s (by simp [hs])) f
          (by simp at hf; omega)
    simp only [List.map_cons] at happ
    rw [happ]

theorem two_le_dumpStr_len (s : PyStr) : 2 ≤ (dumpStr s).length := by
  simp [dumpStr]

theorem le_pyDumpsItems_len : ∀ l : List PyStr,
    l.length ≤ (pyDumpsItems (l.map JVal.jstr)).length
  | [] => by simp [pyDumpsItems]
  | [x] => by
    have := two_le_dumpStr_len x
    simp only [List.map_cons, List.map_nil, pyDumpsItems, pyDumps, List.length_cons,
      List.length_nil]
    omega
  | x :: y :: r => by
    have ih := le_pyDumpsItems_len (y :: r)
    have := two_le_dumpStr_len x
    simp only [List.map_cons, pyDumpsItems, pyDumps, List.length_append, List.length_cons] at *
    omega

theorem pyLoads_dumps_strArr (l : List PyStr) (hl : ∀ s ∈ l, ValidStr s) :
    pyLoads (pyDumps (JVal.jarr (l.map JVal.jstr))) = some (JVal.jarr (l.map JVal.jstr)) := by
  unfold pyLoads
  have hb : l.length + 2 ≤ 2 * (pyDumps (JVal.jarr (l.map JVal.jstr))).length + 2 := by
    have h1 := le_pyDumpsItems_len l
    have h2 : (pyDumps (JVal.jarr (l.map JVal.jstr))).length
        = (pyDumpsItems (l.map JVal.jstr)).length + 2 := by
      simp [pyDumps]
    omega
  have h := parseVal_dumps_strArr l hl [] _ hb
  rw [List.append_nil] at h
  rw [h]
  simp [skipWs]

/-! ### Handler lemmas -/

theorem renderPost_eq (p : Post) (h : (pyLoads p.hashtags).isSome = true) :
    renderPost p = some (renderE p) := by
  unfold renderPost renderE
  cases hp : pyLoads p.hashtags with
  | none => rw [hp] at h; simp at h
  | some v => simp [hp]

theorem renderAll_eq_map (l : List Post) (h : ∀ p ∈ l, (pyLoads p.hashtags).isSome = true) :
    renderAll l = some (l.map renderE) := by
  induction l with
  | nil => rfl
  | cons p ps ih =>
    simp only [renderAll, List.map_cons]
    rw [renderPost_eq p (h p (by simp)), ih (fun q hq => h q (by simp [hq]))]

theorem get_posts_ok (st : St) (h : ∀ p ∈ st.committed, (pyLoads p.hashtags).isSome = true) :
    get_posts st true
      = (200, GetBody.ok ((List.insertionSort postDescOrder st.committed).map renderE)) := by
  unfold get_posts
  rw [renderAll_eq_map _
    (fun p hp => h p ((List.perm_insertionSort postDescOrder st.committed).mem_iff.mp hp))]
  simp

theorem generate_post_pending (env : Env) (body : ReqBody) (upstream : UpstreamOutcome)
    (commitOk : Bool) (now : Nat) (st : St) :
    (generate_post env body upstream commitOk now st).sessionPending = [] := by
  unfold generate_post callAndSave
  repeat' split
  all_goals rfl

theorem generate_post_cases (env : Env) (body : ReqBody) (upstream : UpstreamOutcome)
    (commitOk : Bool) (now : Nat) (st : St) :
    ((generate_post env body upstream commitOk now st).st = st ∧
      (generate_post env body upstream commitOk now st).resp.1 ≠ 200) ∨
    (∃ p, (generate_post env body upstream commitOk now st).st
          = { committed := st.committed ++ [p], nextId := st.nextId + 1 } ∧
        (generate_post env body upstream commitOk now st).resp.1 = 200 ∧ commitOk = true) := by
  unfold generate_post callAndSave
  repeat' split
  all_goals first
    | exact Or.inl ⟨rfl, by simp⟩
    | exact Or.inr ⟨_, rfl, rfl, by assumption⟩

theorem generate_post_valid (env : Env) (ms : List (PyStr × JVal)) (upstream : UpstreamOutcome)
    (commitOk : Bool) (now : Nat) (st : St) (tv ov fv sv : JVal)
    (h1 : dictGet ms (strCodes "topic") = some tv)
    (h2 : dictGet ms (strCodes "tone") = some ov)
    (h3 : dictGet ms (strCodes "platform") = some fv)
    (h4 : dictGet ms (strCodes "persona") = some sv)
    (ht : (pyTruthy tv && pyTruthy ov && pyTruthy fv && pyTruthy sv) = true)
    (hkey : truthyStrOpt env.geminiApiKey = true) :
    generate_post env (ReqBody.parsed (JVal.jobj ms)) upstream commitOk now st
      = callAndSave env upstream commitOk now st tv ov fv sv := by
  unfold generate_post
  simp only [h1, h2, h3, h4, ht, hkey, if_true]

theorem parseContent_ok (text : PyStr) (gms : List (PyStr × JVal)) (ca ip htv : JVal)
    (hparse : pyLoads text = some (JVal.jobj gms))
    (hca : dictGet gms (strCodes "caption") = some ca)
    (hip : dictGet gms (strCodes "imagePrompt") = some ip)
    (hht : dictGet gms (strCodes "hashtags") = some htv) :
    parseContent text = Except.ok (ca, ip, htv) := by
  unfold parseContent pyGetItemKey
  simp [hparse, hca, hip, hht, Except.bind, bind, pure, Except.pure]

theorem callAndSave_ok (env : Env) (status : Nat) (envl : JVal) (now : Nat) (st : St)
    (tv ov fv sv : JVal) (text : PyStr) (ca ip htv : JVal)
    (hstatus : ¬(400 ≤ status ∧ status < 600))
    (hextract : extractText envl = Except.ok text)
    (hpc : parseContent text = Except.ok (ca, ip, htv)) :
    callAndSave env (UpstreamOutcome.response status (some envl)) true now st tv ov fv sv
      = { resp := (200, GenBody.envelope envl),
          st := { committed := st.committed ++
                    [{ id := st.nextId, topic := tv, persona := sv, tone := ov,
                       platform := fv, caption := ca, image_prompt := ip,
                       hashtags := pyDumps htv, created_at := now }],
                  nextId := st.nextId + 1 },
          calledUpstream := true, sessionPending := [] } := by
  simp only [callAndSave]
  rw [if_neg hstatus]
  simp [hextract, hpc, bind, Except.bind]

theorem callAndSave_parse_error (env : Env) (status : Nat) (envl : JVal) (commitOk : Bool)
    (now : Nat) (st : St) (tv ov fv sv : JVal) (text : PyStr) (e : PyExn)
    (hstatus : ¬(400 ≤ status ∧ status < 600))
    (hextract : extractText envl = Except.ok text)
    (hpc : parseContent text = Except.error e) :
    callAndSave env (UpstreamOutcome.response status (some envl)) commitOk now st tv ov fv sv
      = { resp := (500, GenBody.err (ErrMsg.internalError e)), st := st,
          calledUpstream := true, sessionPending := [] } := by
  simp only [callAndSave]
  rw [if_neg hstatus]
  simp [hextract, hpc, bind, Except.bind]

theorem parseContent_error_of_bad (text : PyStr)
    (hbad : pyLoads text = none ∨
      ∃ v, pyLoads text = some v ∧
        ((∃ e, pyGetItemKey v (strCodes "caption") = Except.error e) ∨
         (∃ e, pyGetItemKey v (strCodes "imagePrompt") = Except.error e) ∨
         (∃ e, pyGetItemKey v (strCodes "hashtags") = Except.error e))) :
    ∃ e, parseContent text = Except.error e := by
  unfold parseContent
  rcases hbad with hnone | ⟨v, hv, hkeys⟩
  · exact ⟨PyExn.jsonError, by simp [hnone, bind, Except.bind]⟩
  · rw [hv]
    cases hc : pyGetItemKey v (strCodes "caption") with
    | error e => exact ⟨e, by simp [hc, bind, Except.bind]⟩
    | ok ca =>
      cases hi : pyGetItemKey v (strCodes "imagePrompt") with
      | error e => exact ⟨e, by simp [hc, hi, bind, Except.bind]⟩
      | ok ip =>
        cases hh : pyGetItemKey v (strCodes "hashtags") with
        | error e =>
          exact ⟨e, by simp [hc, hi, hh, bind, Except.bind, Functor.map, Except.map]⟩
        | ok htv =>
          exfalso
          rcases hkeys with ⟨e, he⟩ | ⟨e, he⟩ | ⟨e, he⟩ <;> simp_all

theorem generate_post_commit_fail_500 (env : Env) (body : ReqBody)
    (upstream : UpstreamOutcome) (now : Nat) (st : St)
    (h : (generate_post env body upstream true now st).resp.1 = 200) :
    generate_post env body upstream false now st
      = { resp := (500, GenBody.err (ErrMsg.internalError PyExn.commitFailed)), st := st,
          calledUpstream := true, sessionPending := [] } := by
  unfold generate_post callAndSave at h ⊢
  repeat' split at h <;> try simp_all

/-! ### Claims -/

/-- Claim C5: for every ordered sequence of strings, serializing it for storage
(as `json.dumps` does for a Post's hashtags, app.py line 107) and then
deserializing it (as `json.loads` does when posts are listed, line 141) yields
the original sequence, in the original order, unchanged.  Strings are sequences
of Unicode scalar values. -/
theorem c5_hashtags_roundtrip (tags : List PyStr) (h : ∀ s ∈ tags, ValidStr s) :
    pyLoads (pyDumps (JVal.jarr (tags.map JVal.jstr)))
      = some (JVal.jarr (tags.map JVal.jstr)) :=
  pyLoads_dumps_strArr tags h

/-- Witness for C5 at the specification example, the hashtag list
`["coffee", "morning"]`. -/
theorem c5_hashtags_roundtrip_witness :
    (∀ s ∈ tags0, ValidStr s) ∧
    pyLoads (pyDumps (JVal.jarr (tags0.map JVal.jstr)))
      = some (JVal.jarr (tags0.map JVal.jstr)) :=
  ⟨by decide, c5_hashtags_roundtrip tags0 (by decide)⟩

/-- Claim C7: for every state of the store whose rows hold serialized hashtag
text (the data-model invariant), `get_posts` answers 200 with all persisted
posts, ordered by `created_at` descending, each entry rendered by `renderE`
(hashtags deserialized with the `json.loads` model, `created_at` rendered with
the `isoformat` model). -/
theorem c7_list_ordered_desc (st : St)
    (h : ∀ p ∈ st.committed, (pyLoads p.hashtags).isSome = true) :
    ∃ l, List.Perm l st.committed ∧ List.Sorted postDescOrder l ∧
      get_posts st true = (200, GetBody.ok (l.map renderE)) :=
  ⟨List.insertionSort postDescOrder st.committed,
   List.perm_insertionSort postDescOrder st.committed,
   List.sorted_insertionSort postDescOrder st.committed,
   get_posts_ok st h⟩

/-- Witness for C7 at a store with two posts saved at times 3 and 9. -/
theorem c7_list_ordered_desc_witness :
    (∀ p ∈ st2.committed, (pyLoads p.hashtags).isSome = true) ∧
    ∃ l, List.Perm l st2.committed ∧ List.Sorted postDescOrder l ∧
      get_posts st2 true = (200, GetBody.ok (l.map renderE)) :=
  ⟨by decide, c7_list_ordered_desc st2 (by decide)⟩

/-- Claim C8: posts are write-once: over every sequence of generate and list
operations, the store only ever grows by appending; every previously saved
post, with all its field values, is still present afterwards. -/
theorem c8_posts_append_only (st : St) (ops : List Op) :
    ∃ tail, (List.foldl step st ops).committed = st.committed ++ tail := by
  induction ops generalizing st with
  | nil => exact ⟨[], by simp⟩
  | cons op ops ih =>
    simp only [List.foldl_cons]
    obtain ⟨t2, ht2⟩ := ih (step st op)
    cases op with
    | list q => exact ⟨t2, by simpa [step] using ht2⟩
    | gen e b u c n =>
      rcases generate_post_cases e b u c n st with ⟨h, _⟩ | ⟨p, h, _, _⟩
      · refine ⟨t2, ?_⟩
        rw [ht2]
        simp [step, h]
      · refine ⟨p :: t2, ?_⟩
        rw [ht2]
        simp [step, h]

/-- Claim C2: a `POST /generate` request whose body object lacks any of
`topic`, `tone`, `platform`, `persona`, or binds it to the empty string, is
answered `400 {"error": "Missing required fields"}`, performs no call to the
external AI service, and persists nothing. -/
theorem c2_validation_rejects (env : Env) (ms : List (PyStr × JVal))
    (upstream : UpstreamOutcome) (commitOk : Bool) (now : Nat) (st : St)
    (h : MissingField ms (strCodes "topic") ∨ MissingField ms (strCodes "tone") ∨
         MissingField ms (strCodes "platform") ∨ MissingField ms (strCodes "persona")) :
    (generate_post env (ReqBody.parsed (JVal.jobj ms)) upstream commitOk now st).resp
        = (400, GenBody.err ErrMsg.missingFields) ∧
    (generate_post env (ReqBody.parsed (JVal.jobj ms)) upstream commitOk now st).calledUpstream
        = false ∧
    (generate_post env (ReqBody.parsed (JVal.jobj ms)) upstream commitOk now st).st = st := by
  unfold MissingField at h
  cases h1 : dictGet ms (strCodes "topic") <;>
    cases h2 : dictGet ms (strCodes "tone") <;>
      cases h3 : dictGet ms (strCodes "platform") <;>
        cases h4 : dictGet ms (strCodes "persona") <;>
          simp_all [generate_post, pyTruthy]
  all_goals rcases h with rfl | rfl | rfl | rfl <;> simp_all

/-- Witness for C2 at a request body lacking `topic`. -/
theorem c2_validation_rejects_witness :
    (MissingField msNoTopic (strCodes "topic") ∨ MissingField msNoTopic (strCodes "tone") ∨
      MissingField msNoTopic (strCodes "platform") ∨
      MissingField msNoTopic (strCodes "persona")) ∧
    ((generate_post env0 (ReqBody.parsed (JVal.jobj msNoTopic)) UpstreamOutcome.netError
        true 0 st0).resp = (400, GenBody.err ErrMsg.missingFields) ∧
     (generate_post env0 (ReqBody.parsed (JVal.jobj msNoTopic)) UpstreamOutcome.netError
        true 0 st0).calledUpstream = false ∧
     (generate_post env0 (ReqBody.parsed (JVal.jobj msNoTopic)) UpstreamOutcome.netError
        true 0 st0).st = st0) :=
  ⟨Or.inl (Or.inl rfl),
   c2_validation_rejects env0 msNoTopic UpstreamOutcome.netError true 0 st0
     (Or.inl (Or.inl rfl))⟩

/-- Claim C10: a `POST /generate` body that parses as JSON but is not a JSON
object (`data.get` then raises `AttributeError` on line 62) is answered with
the generic 500 internal-error body, not the 400 validation failure, and
nothing is persisted. -/
theorem c10_nonobject_body (env : Env) (data : JVal) (upstream : UpstreamOutcome)
    (commitOk : Bool) (now : Nat) (st : St) (h : ∀ ms, data ≠ JVal.jobj ms) :
    (generate_post env (ReqBody.parsed data) upstream commitOk now st).resp
        = (500, GenBody.err (ErrMsg.internalError PyExn.attrError)) ∧
    (generate_post env (ReqBody.parsed data) upstream commitOk now st).st = st ∧
    (generate_post env (ReqBody.parsed data) upstream commitOk now st).calledUpstream
        = false := by
  cases data with
  | jobj ms => exact absurd rfl (h ms)
  | jnull => exact ⟨rfl, rfl, rfl⟩
  | jbool b => exact ⟨rfl, rfl, rfl⟩
  | jstr s => exact ⟨rfl, rfl, rfl⟩
  | jarr l => exact ⟨rfl, rfl, rfl⟩

/-- Witness for C10 at the JSON body `null`. -/
theorem c10_nonobject_body_witness :
    (∀ ms, JVal.jnull ≠ JVal.jobj ms) ∧
    ((generate_post env0 (ReqBody.parsed JVal.jnull) UpstreamOutcome.netError true 0 st0).resp
        = (500, GenBody.err (ErrMsg.internalError PyExn.attrError)) ∧
     (generate_post env0 (ReqBody.parsed JVal.jnull) UpstreamOutcome.netError true 0 st0).st
        = st0 ∧
     (generate_post env0 (ReqBody.parsed JVal.jnull) UpstreamOutcome.netError true 0
        st0).calledUpstream = false) :=
  ⟨fun _ hx => JVal.noConfusion hx,
   c10_nonobject_body env0 JVal.jnull UpstreamOutcome.netError true 0 st0
     (fun _ hx => JVal.noConfusion hx)⟩

/-- Counterexample to C4 as stated: the code raises only for statuses 400-599
(`raise_for_status`), so an upstream reply with the non-2xx status 304 and a
valid envelope body still creates a Post and returns 200, where the claim
demands a 500 and no Post. -/
theorem c4_counterexample :
    ¬(200 ≤ 304 ∧ 304 < 300) ∧
    (generate_post env0 reqBody0 (UpstreamOutcome.response 304 (some envelope0)) true 7
        st0).resp.1 = 200 ∧
    (generate_post env0 reqBody0 (UpstreamOutcome.response 304 (some envelope0)) true 7
        st0).st.committed.length = 1 := by
  refine ⟨by omega, ?_, ?_⟩ <;> rfl

/-- Claim C4 (amended): for every generation request where the external AI
service returns a 4xx or 5xx status, or the call fails with a network error or
timeout, no Post is created and the caller receives 500 with the
upstream-failure error message (`Failed to connect to the AI service`). -/
theorem c4_upstream_failure (env : Env) (ms : List (PyStr × JVal))
    (upstream : UpstreamOutcome) (commitOk : Bool) (now : Nat) (st : St) (tv ov fv sv : JVal)
    (h1 : dictGet ms (strCodes "topic") = some tv)
    (h2 : dictGet ms (strCodes "tone") = some ov)
    (h3 : dictGet ms (strCodes "platform") = some fv)
    (h4 : dictGet ms (strCodes "persona") = some sv)
    (ht : (pyTruthy tv && pyTruthy ov && pyTruthy fv && pyTruthy sv) = true)
    (hkey : truthyStrOpt env.geminiApiKey = true)
    (hup : upstream = UpstreamOutcome.netError ∨
      ∃ status mbody, upstream = UpstreamOutcome.response status mbody ∧
        400 ≤ status ∧ status < 600) :
    (generate_post env (ReqBody.parsed (JVal.jobj ms)) upstream commitOk now st).resp
        = (500, GenBody.err ErrMsg.upstreamFailure) ∧
    (generate_post env (ReqBody.parsed (JVal.jobj ms)) upstream commitOk now st).st = st := by
  rw [generate_post_valid env ms upstream commitOk now st tv ov fv sv h1 h2 h3 h4 ht hkey]
  rcases hup with rfl | ⟨status, mbody, rfl, hs1, hs2⟩
  · exact ⟨rfl, rfl⟩
  · simp only [callAndSave]
    rw [if_pos ⟨hs1, hs2⟩]
    exact ⟨rfl, rfl⟩

/-- Witness for the amended C4 at an upstream 503 with the example request. -/
theorem c4_upstream_failure_witness :
    ((UpstreamOutcome.response 503 none : UpstreamOutcome) = UpstreamOutcome.netError ∨
      ∃ status mbody, (UpstreamOutcome.response 503 none : UpstreamOutcome)
          = UpstreamOutcome.response status mbody ∧ 400 ≤ status ∧ status < 600) ∧
    ((generate_post env0 (ReqBody.parsed (JVal.jobj ms0)) (UpstreamOutcome.response 503 none)
        true 0 st0).resp = (500, GenBody.err ErrMsg.upstreamFailure) ∧
     (generate_post env0 (ReqBody.parsed (JVal.jobj ms0)) (UpstreamOutcome.response 503 none)
        true 0 st0).st = st0) :=
  ⟨Or.inr ⟨503, none, rfl, by omega, by omega⟩,
   c4_upstream_failure env0 ms0 (UpstreamOutcome.response 503 none) true 0 st0
     (JVal.jstr (strCodes "coffee")) (JVal.jstr (strCodes "playful"))
     (JVal.jstr (strCodes "Instagram")) (JVal.jstr (strCodes "barista"))
     rfl rfl rfl rfl rfl rfl
     (Or.inr ⟨503, none, rfl, by omega, by omega⟩)⟩

/-- Counterexample to C9 as stated: initialization (app.py lines 12-28) is
insensitive to the presence of `GEMINI_API_KEY` — it cannot fail fast on its
absence — and the failure instead surfaces at the first generation request,
which returns 500 with the key error. -/
theorem c9_counterexample :
    initApp envNoKey = initApp env0 ∧
    (generate_post envNoKey reqBody0 (UpstreamOutcome.response 200 (some envelope0)) true 7
        st0).resp = (500, GenBody.err ErrMsg.noApiKey) ∧
    (generate_post envNoKey reqBody0 (UpstreamOutcome.response 200 (some envelope0)) true 7
        st0).calledUpstream = false :=
  ⟨rfl, rfl, rfl⟩

/-- Claim C9 (amended): the API key is checked per request, not at
initialization: initialization succeeds identically with or without the key,
and a generation request made without the key (or with an empty key) fails with
500 `GEMINI_API_KEY not found.`, before any upstream call and with no Post
persisted. -/
theorem c9_missing_key_first_request (env : Env) (ms : List (PyStr × JVal))
    (upstream : UpstreamOutcome) (commitOk : Bool) (now : Nat) (st : St) (tv ov fv sv : JVal)
    (h1 : dictGet ms (strCodes "topic") = some tv)
    (h2 : dictGet ms (strCodes "tone") = some ov)
    (h3 : dictGet ms (strCodes "platform") = some fv)
    (h4 : dictGet ms (strCodes "persona") = some sv)
    (ht : (pyTruthy tv && pyTruthy ov && pyTruthy fv && pyTruthy sv) = true)
    (hkey : truthyStrOpt env.geminiApiKey = false) :
    initApp env = initApp { env with geminiApiKey := keyOk } ∧
    (generate_post env (ReqBody.parsed (JVal.jobj ms)) upstream commitOk now st).resp
        = (500, GenBody.err ErrMsg.noApiKey) ∧
    (generate_post env (ReqBody.parsed (JVal.jobj ms)) upstream commitOk now st).st = st ∧
    (generate_post env (ReqBody.parsed (JVal.jobj ms)) upstream commitOk now st).calledUpstream
        = false := by
  have hg : generate_post env (ReqBody.parsed (JVal.jobj ms)) upstream commitOk now st
      = { resp := (500, GenBody.err ErrMsg.noApiKey), st := st, calledUpstream := false,
          sessionPending := [] } := by
    unfold generate_post
    simp [h1, h2, h3, h4, ht, hkey]
  exact ⟨rfl, by rw [hg], by rw [hg], by rw [hg]⟩

/-- Witness for the amended C9 at the keyless environment and example request. -/
theorem c9_missing_key_first_request_witness :
    truthyStrOpt envNoKey.geminiApiKey = false ∧
    (initApp envNoKey = initApp { envNoKey with geminiApiKey := keyOk } ∧
     (generate_post envNoKey (ReqBody.parsed (JVal.jobj ms0)) UpstreamOutcome.netError true 0
        st0).resp = (500, GenBody.err ErrMsg.noApiKey) ∧
     (generate_post envNoKey (ReqBody.parsed (JVal.jobj ms0)) UpstreamOutcome.netError true 0
        st0).st = st0 ∧
     (generate_post envNoKey (ReqBody.parsed (JVal.jobj ms0)) UpstreamOutcome.netError true 0
        st0).calledUpstream = false) :=
  ⟨rfl,
   c9_missing_key_first_request envNoKey ms0 UpstreamOutcome.netError true 0 st0
     (JVal.jstr (strCodes "coffee")) (JVal.jstr (strCodes "playful"))
     (JVal.jstr (strCodes "Instagram")) (JVal.jstr (strCodes "barista"))
     rfl rfl rfl rfl rfl rfl⟩

/-- Claim C6: the save is atomic.  After every `POST /generate` the session has
no pending rows; the store either is unchanged or has gained exactly the one
complete Post (and then the request succeeded with 200); and when the commit
fails the transaction is rolled back, the store is unchanged, the caller never
sees the 200 success, and — whenever the write was actually attempted, i.e. the
same request with a succeeding commit answers 200 — the failure is reported as
the 500 server error of app.py line 125. -/
theorem c6_save_atomic (env : Env) (body : ReqBody) (upstream : UpstreamOutcome)
    (commitOk : Bool) (now : Nat) (st : St) :
    (generate_post env body upstream commitOk now st).sessionPending = [] ∧
    ((generate_post env body upstream commitOk now st).st.committed = st.committed ∨
      ∃ p, (generate_post env body upstream commitOk now st).st.committed
          = st.committed ++ [p] ∧
        (generate_post env body upstream commitOk now st).resp.1 = 200) ∧
    (commitOk = false →
      (generate_post env body upstream commitOk now st).st.committed = st.committed ∧
      (generate_post env body upstream commitOk now st).resp.1 ≠ 200 ∧
      ((generate_post env body upstream true now st).resp.1 = 200 →
        (generate_post env body upstream commitOk now st).resp
          = (500, GenBody.err (ErrMsg.internalError PyExn.commitFailed)) ∧
        (generate_post env body upstream commitOk now st).st = st)) := by
  refine ⟨generate_post_pending env body upstream commitOk now st, ?_, ?_⟩
  · rcases generate_post_cases env body upstream commitOk now st with ⟨h, _⟩ | ⟨p, h, hr, _⟩
    · exact Or.inl (by rw [h])
    · exact Or.inr ⟨p, by rw [h], hr⟩
  · intro hc
    subst hc
    refine ⟨?_, ?_, ?_⟩
    · rcases generate_post_cases env body upstream false now st with ⟨h, _⟩ |
        ⟨p, h, hr, hcommit⟩
      · rw [h]
      · exact absurd hcommit (by simp)
    · rcases generate_post_cases env body upstream false now st with ⟨h, hne⟩ |
        ⟨p, h, hr, hcommit⟩
      · exact hne
      · exact absurd hcommit (by simp)
    · intro h200
      rw [generate_post_commit_fail_500 env body upstream now st h200]
      exact ⟨rfl, rfl⟩

/-- Witness for C6 at a failing commit on an otherwise successful request: the
write is attempted (the same request with a good commit answers 200) and the
failure is reported as the 500 internal server error with the store unchanged. -/
theorem c6_save_atomic_witness :
    (generate_post env0 reqBody0 (UpstreamOutcome.response 200 (some envelope0)) false 7
        st0).sessionPending = [] ∧
    ((generate_post env0 reqBody0 (UpstreamOutcome.response 200 (some envelope0)) false 7
        st0).st.committed = st0.committed ∨
      ∃ p, (generate_post env0 reqBody0 (UpstreamOutcome.response 200 (some envelope0)) false 7
          st0).st.committed = st0.committed ++ [p] ∧
        (generate_post env0 reqBody0 (UpstreamOutcome.response 200 (some envelope0)) false 7
          st0).resp.1 = 200) ∧
    (false = false →
      (generate_post env0 reqBody0 (UpstreamOutcome.response 200 (some envelope0)) false 7
        st0).st.committed = st0.committed ∧
      (generate_post env0 reqBody0 (UpstreamOutcome.response 200 (some envelope0)) false 7
        st0).resp.1 ≠ 200 ∧
      ((generate_post env0 reqBody0 (UpstreamOutcome.response 200 (some envelope0)) true 7
          st0).resp.1 = 200 →
        (generate_post env0 reqBody0 (UpstreamOutcome.response 200 (some envelope0)) false 7
          st0).resp = (500, GenBody.err (ErrMsg.internalError PyExn.commitFailed)) ∧
        (generate_post env0 reqBody0 (UpstreamOutcome.response 200 (some envelope0)) false 7
          st0).st = st0)) :=
  c6_save_atomic env0 reqBody0 (UpstreamOutcome.response 200 (some envelope0)) false 7 st0

/-- Claim C3: when the upstream envelope's text payload is not valid JSON, or
its parsed JSON lacks any of `caption`, `imagePrompt`, `hashtags` (their
subscription raises), no Post is created and the caller receives a 500 with an
error body (the generic internal-error response of app.py line 125). -/
theorem c3_bad_content_no_post (env : Env) (ms : List (PyStr × JVal)) (status : Nat)
    (envl : JVal) (text : PyStr) (commitOk : Bool) (now : Nat) (st : St) (tv ov fv sv : JVal)
    (h1 : dictGet ms (strCodes "topic") = some tv)
    (h2 : dictGet ms (strCodes "tone") = some ov)
    (h3 : dictGet ms (strCodes "platform") = some fv)
    (h4 : dictGet ms (strCodes "persona") = some sv)
    (ht : (pyTruthy tv && pyTruthy ov && pyTruthy fv && pyTruthy sv) = true)
    (hkey : truthyStrOpt env.geminiApiKey = true)
    (hstatus : ¬(400 ≤ status ∧ status < 600))
    (hextract : extractText envl = Except.ok text)
    (hbad : pyLoads text = none ∨
      ∃ v, pyLoads text = some v ∧
        ((∃ e, pyGetItemKey v (strCodes "caption") = Except.error e) ∨
         (∃ e, pyGetItemKey v (strCodes "imagePrompt") = Except.error e) ∨
         (∃ e, pyGetItemKey v (strCodes "hashtags") = Except.error e))) :
    (generate_post env (ReqBody.parsed (JVal.jobj ms))
        (UpstreamOutcome.response status (some envl)) commitOk now st).st = st ∧
    ∃ e, (generate_post env (ReqBody.parsed (JVal.jobj ms))
        (UpstreamOutcome.response status (some envl)) commitOk now st).resp
      = (500, GenBody.err (ErrMsg.internalError e)) := by
  obtain ⟨e, hpc⟩ := parseContent_error_of_bad text hbad
  rw [generate_post_valid env ms _ commitOk now st tv ov fv sv h1 h2 h3 h4 ht hkey]
  rw [callAndSave_parse_error env status envl commitOk now st tv ov fv sv text e hstatus
        hextract hpc]
  exact ⟨rfl, e, rfl⟩

/-- Witness for C3 at an upstream 200 whose text payload is `not json`. -/
theorem c3_bad_content_no_post_witness :
    (pyLoads badText0 = none ∨
      ∃ v, pyLoads badText0 = some v ∧
        ((∃ e, pyGetItemKey v (strCodes "caption") = Except.error e) ∨
         (∃ e, pyGetItemKey v (strCodes "imagePrompt") = Except.error e) ∨
         (∃ e, pyGetItemKey v (strCodes "hashtags") = Except.error e))) ∧
    ((generate_post env0 (ReqBody.parsed (JVal.jobj ms0))
        (UpstreamOutcome.response 200 (some envelopeBad)) true 7 st0).st = st0 ∧
     ∃ e, (generate_post env0 (ReqBody.parsed (JVal.jobj ms0))
        (UpstreamOutcome.response 200 (some envelopeBad)) true 7 st0).resp
       = (500, GenBody.err (ErrMsg.internalError e))) :=
  ⟨Or.inl rfl,
   c3_bad_content_no_post env0 ms0 200 envelopeBad badText0 true 7 st0
     (JVal.jstr (strCodes "coffee")) (JVal.jstr (strCodes "playful"))
     (JVal.jstr (strCodes "Instagram")) (JVal.jstr (strCodes "barista"))
     rfl rfl rfl rfl rfl rfl (by omega) rfl (Or.inl rfl)⟩

/-- Claim C1: for a generation request whose 2xx upstream reply carries, at
`candidates[0].content.parts[0].text`, valid JSON with `caption`,
`imagePrompt` and `hashtags`, exactly one new Post is persisted whose topic,
persona, tone, platform, caption, imagePrompt and hashtags equal the request
fields and the parsed content, and a subsequent `get_posts` contains that
entry with `created_at` equal to the time of the save. -/
theorem c1_success_persists (env : Env) (ms gms : List (PyStr × JVal)) (status : Nat)
    (envl : JVal) (text : PyStr) (now : Nat) (st : St) (tv ov fv sv ca ip : JVal)
    (tags : List PyStr)
    (h1 : dictGet ms (strCodes "topic") = some tv)
    (h2 : dictGet ms (strCodes "tone") = some ov)
    (h3 : dictGet ms (strCodes "platform") = some fv)
    (h4 : dictGet ms (strCodes "persona") = some sv)
    (ht : (pyTruthy tv && pyTruthy ov && pyTruthy fv && pyTruthy sv) = true)
    (hkey : truthyStrOpt env.geminiApiKey = true)
    (hstatus : 200 ≤ status ∧ status < 300)
    (hextract : extractText envl = Except.ok text)
    (hparse : pyLoads text = some (JVal.jobj gms))
    (hca : dictGet gms (strCodes "caption") = some ca)
    (hip : dictGet gms (strCodes "imagePrompt") = some ip)
    (hht : dictGet gms (strCodes "hashtags") = some (JVal.jarr (tags.map JVal.jstr)))
    (htags : ∀ s ∈ tags, ValidStr s)
    (hold : ∀ p ∈ st.committed, (pyLoads p.hashtags).isSome = true) :
    (generate_post env (ReqBody.parsed (JVal.jobj ms))
        (UpstreamOutcome.response status (some envl)) true now st).st
      = { committed := st.committed ++
            [{ id := st.nextId, topic := tv, persona := sv, tone := ov, platform := fv,
               caption := ca, image_prompt := ip,
               hashtags := pyDumps (JVal.jarr (tags.map JVal.jstr)), created_at := now }],
          nextId := st.nextId + 1 } ∧
    (generate_post env (ReqBody.parsed (JVal.jobj ms))
        (UpstreamOutcome.response status (some envl)) true now st).resp
      = (200, GenBody.envelope envl) ∧
    ∃ es, get_posts (generate_post env (ReqBody.parsed (JVal.jobj ms))
        (UpstreamOutcome.response status (some envl)) true now st).st true
        = (200, GetBody.ok es) ∧
      { id := st.nextId, topic := tv, caption := ca, image_prompt := ip,
        hashtags := JVal.jarr (tags.map JVal.jstr),
        created_at := isoformat now : Entry } ∈ es := by
  have hG : generate_post env (ReqBody.parsed (JVal.jobj ms))
      (UpstreamOutcome.response status (some envl)) true now st
      = { resp := (200, GenBody.envelope envl),
          st := { committed := st.committed ++
                    [{ id := st.nextId, topic := tv, persona := sv, tone := ov,
                       platform := fv, caption := ca, image_prompt := ip,
                       hashtags := pyDumps (JVal.jarr (tags.map JVal.jstr)),
                       created_at := now }],
                  nextId := st.nextId + 1 },
          calledUpstream := true, sessionPending := [] } := by
    rw [generate_post_valid env ms _ true now st tv ov fv sv h1 h2 h3 h4 ht hkey]
    exact callAndSave_ok env status envl now st tv ov fv sv text ca ip
      (JVal.jarr (tags.map JVal.jstr)) (by omega) hextract
      (parseContent_ok text gms ca ip (JVal.jarr (tags.map JVal.jstr)) hparse hca hip hht)
  have hnew : pyLoads (pyDumps (JVal.jarr (tags.map JVal.jstr)))
      = some (JVal.jarr (tags.map JVal.jstr)) := pyLoads_dumps_strArr tags htags
  refine ⟨by rw [hG], by rw [hG], ?_⟩
  have hall : ∀ p ∈ (generate_post env (ReqBody.parsed (JVal.jobj ms))
      (UpstreamOutcome.response status (some envl)) true now st).st.committed,
      (pyLoads p.hashtags).isSome = true := by
    rw [hG]
    intro p hp
    rcases List.mem_append.mp hp with hmem | hmem
    · exact hold p hmem
    · rw [List.mem_singleton.mp hmem]
      simp [hnew]
  refine ⟨(List.insertionSort postDescOrder (generate_post env (ReqBody.parsed (JVal.jobj ms))
      (UpstreamOutcome.response status (some envl)) true now st).st.committed).map renderE,
    get_posts_ok _ hall, ?_⟩
  have hmemSort :
      ({ id := st.nextId, topic := tv, persona := sv, tone := ov, platform := fv,
         caption := ca, image_prompt := ip,
         hashtags := pyDumps (JVal.jarr (tags.map JVal.jstr)), created_at := now : Post })
        ∈ List.insertionSort postDescOrder (generate_post env (ReqBody.parsed (JVal.jobj ms))
            (UpstreamOutcome.response status (some envl)) true now st).st.committed := by
    apply (List.perm_insertionSort postDescOrder _).mem_iff.mpr
    rw [hG]
    exact List.mem_append_right _ (List.mem_singleton_self _)
  have hre : renderE
      { id := st.nextId, topic := tv, persona := sv, tone := ov, platform := fv,
        caption := ca, image_prompt := ip,
        hashtags := pyDumps (JVal.jarr (tags.map JVal.jstr)), created_at := now }
      = { id := st.nextId, topic := tv, caption := ca, image_prompt := ip,
          hashtags := JVal.jarr (tags.map JVal.jstr), created_at := isoformat now : Entry } := by
    unfold renderE
    simp [hnew]
  exact hre ▸ List.mem_map_of_mem renderE hmemSort

/-- Witness for C1 at the specification example: topic `coffee`, mocked
upstream reply with caption, image prompt and hashtags, saved at time 7. -/
theorem c1_success_persists_witness :
    (pyLoads contentText0 = some (JVal.jobj gms0) ∧ (∀ s ∈ tags0, ValidStr s)) ∧
    ((generate_post env0 (ReqBody.parsed (JVal.jobj ms0))
        (UpstreamOutcome.response 200 (some envelope0)) true 7 st0).st
      = { committed := st0.committed ++
            [{ id := st0.nextId, topic := JVal.jstr (strCodes "coffee"),
               persona := JVal.jstr (strCodes "barista"),
               tone := JVal.jstr (strCodes "playful"),
               platform := JVal.jstr (strCodes "Instagram"),
               caption := JVal.jstr (strCodes "**Good morning!**"),
               image_prompt := JVal.jstr (strCodes "a steaming latte"),
               hashtags := pyDumps (JVal.jarr (tags0.map JVal.jstr)), created_at := 7 }],
          nextId := st0.nextId + 1 } ∧
     (generate_post env0 (ReqBody.parsed (JVal.jobj ms0))
        (UpstreamOutcome.response 200 (some envelope0)) true 7 st0).resp
      = (200, GenBody.envelope envelope0) ∧
     ∃ es, get_posts (generate_post env0 (ReqBody.parsed (JVal.jobj ms0))
        (UpstreamOutcome.response 200 (some envelope0)) true 7 st0).st true
        = (200, GetBody.ok es) ∧
      { id := st0.nextId, topic := JVal.jstr (strCodes "coffee"),
        caption := JVal.jstr (strCodes "**Good morning!**"),
        image_prompt := JVal.jstr (strCodes "a steaming latte"),
        hashtags := JVal.jarr (tags0.map JVal.jstr),
        created_at := isoformat 7 : Entry } ∈ es) :=
  ⟨⟨rfl, by decide⟩,
   c1_success_persists env0 ms0 gms0 200 envelope0 contentText0 7 st0
     (JVal.jstr (strCodes "coffee")) (JVal.jstr (strCodes "playful"))
     (JVal.jstr (strCodes "Instagram")) (JVal.jstr (strCodes "barista"))
     (JVal.jstr (strCodes "**Good morning!**")) (JVal.jstr (strCodes "a steaming latte"))
     tags0 rfl rfl rfl rfl rfl rfl (by omega) rfl rfl rfl rfl rfl (by decide)
     (by simp [st0])⟩

end SMA
